import Mathlib

/-!
Verification development for the polysolmcp repository.

The repository supplies a Next.js landing page (a root layout and a single
static marketing page) together with README prose documenting a separate
Polymarket MCP server.  The page components are embedded below as a pure
HTML tree; the MCP server implementation is not part of the supplied
source, so its contract (tool registry, dispatcher, upstream client,
response formatter) is modelled from the specification text and the
claims are settled against that model.
-/

/-- A rendered HTML node: an element with a tag, an attribute list and
children, or a text node.  This is the shallow embedding of the JSX trees
returned by the page components. -/
inductive Node where
  | el (tag : String) (attrs : List (String × String)) (children : List Node)
  | txt (s : String)

/-- The exported page metadata object of layout.tsx. -/
structure Metadata where
  title : String
  description : String
  iconsIcon : String
deriving Repr, DecidableEq

/-- Embedding of `export const metadata` in layout.tsx. -/
def metadata : Metadata :=
  { title := "Polymarket Agent Hub"
  , description := "Build AI agents on top of the polymarket-mcp MCP server."
  , iconsIcon := "/favicon.png" }

/-- Embedding of the RootLayout component of layout.tsx: a pure function
from the children node to the rendered html document tree. -/
def RootLayout (children : Node) : Node :=
  .el "html" [("lang", "en")]
    [ .el "head" []
        [ .el "link" [("rel", "icon"), ("href", "/favicon.png")] [] ]
    , .el "body" [("className", "bg-slate-950 text-slate-50 antialiased")]
        [children] ]

/-- Top navbar of the Home page: sticky header with site title and GitHub
link. -/
def topNavbar : Node :=
  .el "nav" [("className", "sticky top-0 z-50 border-b border-slate-800 bg-slate-950/90 backdrop-blur-sm")]
    [ .el "div" [("className", "mx-auto max-w-6xl px-4 py-4")]
        [ .el "div" [("className", "flex items-center justify-between")]
            [ .el "h1" [("className", "text-lg font-semibold")] [.txt "Polymarket Agent Hub"]
            , .el "a"
                [ ("href", "https://github.com/polysolmcp/polysolmcp")
                , ("target", "_blank")
                , ("rel", "noreferrer")
                , ("title", "View repository on GitHub")
                , ("className", "text-sm text-slate-400 hover:text-slate-200 transition-colors cursor-pointer") ]
                [.txt "GitHub"] ] ] ]

/-- One row of the example agent card in the hero section. -/
def exampleAgentRow (toolText argText : String) : Node :=
  .el "div" [("className", "rounded-lg bg-slate-800/50 p-3")]
    [ .el "span" [("className", "text-sky-400")] [.txt "→"]
    , .txt " "
    , .el "span" [("className", "text-slate-300")] [.txt toolText]
    , .el "span" [("className", "text-slate-500")] [.txt argText] ]

/-- Hero section of the Home page. -/
def heroSection : Node :=
  .el "section" [("className", "mb-24 md:mb-32")]
    [ .el "div" [("className", "relative overflow-hidden rounded-3xl bg-gradient-to-b from-sky-500/20 via-slate-950 to-slate-950 p-8 md:p-12 lg:p-16")]
        [ .el "div" [("className", "grid gap-8 lg:grid-cols-2 lg:gap-12")]
            [ .el "div" [("className", "flex flex-col justify-center space-y-7")]
                [ .el "div" [("className", "inline-block w-fit rounded-full border border-sky-500/30 bg-sky-500/10 px-4 py-1.5 text-xs font-medium text-sky-300")]
                    [.txt "Polymarket x AI Agents"]
                , .el "h1" [("className", "text-4xl font-bold leading-tight md:text-5xl lg:text-6xl")]
                    [.txt "Turn Polymarket into an AI-ready prediction feed."]
                , .el "p" [("className", "text-lg text-slate-400 md:text-xl")]
                    [.txt "This site is the front door for the open-source polymarket-mcp MCP server. It lets AI agents access Polymarket markets, prices, and history through a clean MCP interface."]
                , .el "div" [("className", "flex flex-wrap gap-2")]
                    [ .el "span" [("className", "rounded-full border border-slate-700 bg-slate-900/50 px-3 py-1 text-xs font-medium")] [.txt "MCP Server"]
                    , .el "span" [("className", "rounded-full border border-slate-700 bg-slate-900/50 px-3 py-1 text-xs font-medium")] [.txt "MIT Licensed"]
                    , .el "span" [("className", "rounded-full border border-slate-700 bg-slate-900/50 px-3 py-1 text-xs font-medium")] [.txt "Claude-ready"] ]
                , .el "div" [("className", "flex flex-wrap gap-4 pt-2")]
                    [ .el "a"
                        [ ("href", "https://github.com/polysolmcp/polysolmcp")
                        , ("target", "_blank")
                        , ("rel", "noreferrer")
                        , ("className", "rounded-lg bg-sky-500 px-6 py-3 font-semibold text-white transition-all duration-200 ease-out hover:bg-sky-600 hover:scale-105 hover:shadow-lg hover:shadow-sky-500/50") ]
                        [.txt "View GitHub Repo"]
                    , .el "a"
                        [ ("href", "#quickstart")
                        , ("className", "rounded-lg border border-slate-700 bg-slate-900/50 px-6 py-3 font-semibold transition-all duration-200 ease-out hover:bg-slate-800/50 hover:scale-105 hover:shadow-md hover:border-slate-600") ]
                        [.txt "Agent Quickstart"] ] ]
            , .el "div" [("className", "flex items-center justify-center")]
                [ .el "div" [("className", "w-full rounded-2xl border border-slate-700/60 bg-slate-900/70 p-6 backdrop-blur-sm")]
                    [ .el "h3" [("className", "mb-4 text-lg font-semibold")] [.txt "Example agent: Odds Sentinel"]
                    , .el "div" [("className", "space-y-3 font-mono text-sm")]
                        [ exampleAgentRow "list-markets" "(status=\"open\")"
                        , exampleAgentRow "get-market-prices" "(market_id=\"0x123...\")"
                        , exampleAgentRow "get-market-history" "(market_id=\"0x123...\", timeframe=\"7d\")" ] ] ] ] ] ]

/-- One highlight row in the What-is-this section. -/
def highlightRow (s : String) : Node :=
  .el "li" [("className", "flex items-start gap-2")]
    [ .el "span" [("className", "mt-1 text-sky-400")] [.txt "✓"]
    , .el "span" [] [.txt s] ]

/-- What-is-polymarket-mcp section of the Home page. -/
def whatSection : Node :=
  .el "section" [("className", "mb-28 md:mb-32")]
    [ .el "h2" [("className", "mb-4 text-3xl font-bold md:text-4xl")] [.txt "What is polymarket-mcp?"]
    , .el "div" [("className", "grid gap-8 lg:grid-cols-2")]
        [ .el "div" [("className", "space-y-4 text-slate-400")]
            [ .el "p" []
                [.txt "polymarket-mcp is a Model Context Protocol (MCP) server that wraps Polymarket&apos;s APIs. It standardizes several tools for AI agents to interact with prediction markets in a consistent way."]
            , .el "p" [] [.txt "The server provides standardized tools for:"]
            , .el "ul" [("className", "list-disc space-y-2 pl-6")]
                [ .el "li" [] [.txt "Listing markets with filtering and pagination"]
                , .el "li" [] [.txt "Getting detailed market information"]
                , .el "li" [] [.txt "Fetching current prices and implied probabilities"]
                , .el "li" [] [.txt "Retrieving historical price and volume data"] ]
            , .el "p" []
                [.txt "It&apos;s designed to run locally or on your own infrastructure, and integrates seamlessly with MCP-compatible AI clients like Claude Desktop."] ]
        , .el "div" [("className", "rounded-2xl border border-slate-700/60 bg-slate-900/70 p-6")]
            [ .el "h3" [("className", "mb-4 text-xl font-semibold")] [.txt "Highlights"]
            , .el "ul" [("className", "space-y-3 text-slate-300")]
                [ highlightRow "Clean JSON responses optimized for LLMs"
                , highlightRow "Access to real prediction markets: politics, crypto, sports, and more"
                , highlightRow "Historical data ready for charting and backtests"
                , highlightRow "Error handling and rate limits baked into the server" ] ] ] ]

/-- Quickstart section of the Home page; the only element of the page that
carries an id attribute, targeted by the hero fragment link. -/
def quickstartSection : Node :=
  .el "section" [("id", "quickstart"), ("className", "mb-24 md:mb-32 scroll-mt-20")]
    [ .el "h2" [("className", "mb-2 text-3xl font-bold md:text-4xl")] [.txt "Quickstart: from zero to running MCP server"]
    , .el "p" [("className", "mb-8 text-slate-400")]
        [.txt "Clone, configure, and run the polymarket-mcp server in three simple steps."]
    , .el "div" [("className", "grid gap-7 md:grid-cols-3")]
        [ .el "div" [("className", "rounded-2xl border border-slate-700/60 bg-slate-900/70 p-6")]
            [ .el "h3" [("className", "mb-3 text-xl font-semibold")] [.txt "1. Clone & install"]
            , .el "p" [("className", "mb-4 text-sm text-slate-400")]
                [.txt "Get the repository and install dependencies using uv."]
            , .el "pre" [("className", "overflow-x-auto rounded-lg bg-slate-950 p-4 text-xs")]
                [ .el "code" [("className", "text-slate-300")]
                    [.txt "git clone https://github.com/polysolmcp/polysolmcp.git\ncd polysolmcp\nuv pip install -e ."] ] ]
        , .el "div" [("className", "rounded-2xl border border-slate-700/60 bg-slate-900/70 p-6")]
            [ .el "h3" [("className", "mb-3 text-xl font-semibold")] [.txt "2. Set your environment variables"]
            , .el "p" [("className", "mb-4 text-sm text-slate-400")]
                [.txt "Configure your Polymarket API key and wallet address."]
            , .el "pre" [("className", "overflow-x-auto rounded-lg bg-slate-950 p-4 text-xs")]
                [ .el "code" [("className", "text-slate-300")]
                    [.txt "KEY=your_polymarket_api_key_here\nFUNDER=your_polymarket_wallet_address"] ]
            , .el "p" [("className", "mt-3 text-xs text-slate-500")]
                [.txt "Check the GitHub README for the latest required variables and how to obtain your API key."] ]
        , .el "div" [("className", "rounded-2xl border border-slate-700/60 bg-slate-900/70 p-6")]
            [ .el "h3" [("className", "mb-3 text-xl font-semibold")] [.txt "3. Run the server"]
            , .el "p" [("className", "mb-4 text-sm text-slate-400")]
                [.txt "Start the MCP server and optionally use the inspector for debugging."]
            , .el "pre" [("className", "overflow-x-auto rounded-lg bg-slate-950 p-4 text-xs")]
                [ .el "code" [("className", "text-slate-300")]
                    [.txt "uv run src/polymarket_mcp/server.py"] ]
            , .el "pre" [("className", "mt-3 overflow-x-auto rounded-lg bg-slate-950 p-4 text-xs")]
                [ .el "code" [("className", "text-slate-300")]
                    [.txt "npx @modelcontextprotocol/inspector \\\n  uv --directory /path/to/polysolmcp \\\n  run src/polymarket_mcp/server.py"] ]
            , .el "p" [("className", "mt-3 text-xs text-slate-500")]
                [.txt "The inspector is optional, but great for debugging MCP tools."] ] ] ]

/-- The Claude Desktop example configuration text shown on the page. -/
def claudeConfigText : String :=
  "\x7b\n  \"mcpServers\": \x7b\n    \"polymarket-mcp\": \x7b\n      \"command\": \"uv\",\n      \"args\": [\n        \"--directory\",\n        \"/Users/your-username/path/to/polysolmcp\",\n        \"run\",\n        \"src/polymarket_mcp/server.py\"\n      ],\n      \"env\": \x7b\n        \"KEY\": \"your_polymarket_api_key\",\n        \"FUNDER\": \"your_polymarket_wallet_address\"\n      \x7d\n    \x7d\n  \x7d\n\x7d"

/-- MCP client configuration section of the Home page. -/
def clientConfigSection : Node :=
  .el "section" [("className", "mb-24 md:mb-32")]
    [ .el "h2" [("className", "mb-4 text-3xl font-bold md:text-4xl")] [.txt "Connect to Claude Desktop (example config)"]
    , .el "p" [("className", "mb-6 text-slate-400")]
        [.txt "Claude Desktop can be configured to talk to MCP servers via its claude_desktop_config.json. Add polymarket-mcp under the mcpServers section."]
    , .el "div" [("className", "rounded-2xl border border-slate-700/60 bg-slate-900/70 p-6")]
        [ .el "pre" [("className", "overflow-x-auto rounded-lg bg-slate-950 p-4 text-sm")]
            [ .el "code" [("className", "text-slate-300")] [.txt claudeConfigText] ] ]
    , .el "div" [("className", "mt-6 grid gap-4 md:grid-cols-2")]
        [ .el "div" [("className", "rounded-lg border border-slate-700/60 bg-slate-900/50 p-4")]
            [ .el "p" [("className", "mb-1 text-sm font-semibold")] [.txt "macOS path:"]
            , .el "code" [("className", "text-xs text-slate-400")]
                [.txt "~/Library/Application Support/Claude/claude_desktop_config.json"] ]
        , .el "div" [("className", "rounded-lg border border-slate-700/60 bg-slate-900/50 p-4")]
            [ .el "p" [("className", "mb-1 text-sm font-semibold")] [.txt "Windows path:"]
            , .el "code" [("className", "text-xs text-slate-400")]
                [.txt "%APPDATA%/Claude/claude_desktop_config.json"] ] ]
    , .el "p" [("className", "mt-4 text-sm text-slate-500")]
        [.txt "Paths can vary, and you should consult Claude Desktop documentation if needed."] ]

/-- One tool card in the Tools section. -/
def toolCard (toolTitle toolDesc inputsText returnsText : String) : Node :=
  .el "div" [("className", "rounded-2xl border border-slate-700/50 bg-slate-900/70 p-6")]
    [ .el "h3" [("className", "mb-2 text-xl font-semibold text-sky-400")] [.txt toolTitle]
    , .el "p" [("className", "mb-4 text-slate-400")] [.txt toolDesc]
    , .el "div" [("className", "space-y-2 text-sm")]
        [ .el "div" []
            [ .el "span" [("className", "font-semibold text-slate-300")] [.txt "Inputs:"]
            , .el "span" [("className", "ml-2 text-slate-400")] [.txt inputsText] ]
        , .el "div" []
            [ .el "span" [("className", "font-semibold text-slate-300")] [.txt "Returns:"]
            , .el "span" [("className", "ml-2 text-slate-400")] [.txt returnsText] ] ] ]

/-- Available tools section of the Home page. -/
def toolsSection : Node :=
  .el "section" [("className", "mb-24 md:mb-32")]
    [ .el "h2" [("className", "mb-2 text-3xl font-bold md:text-4xl")] [.txt "Tools your agents can call"]
    , .el "p" [("className", "mb-8 text-slate-400")]
        [.txt "The polymarket-mcp server exposes four main tools to your AI agents."]
    , .el "div" [("className", "grid gap-7 md:grid-cols-2")]
        [ toolCard "list-markets"
            "Browse markets with filters for status and pagination."
            "status (&quot;open&quot;, &quot;closed&quot;, &quot;resolved&quot;), limit, offset"
            "List of markets with IDs, titles/questions, status, categories, volume, etc."
        , toolCard "get-market-info"
            "Fetch detailed info for a specific market."
            "market_id or slug"
            "Title/question, category, status, end/resolution date, volume, liquidity, and description."
        , toolCard "get-market-prices"
            "Retrieve current outcome prices and implied probabilities."
            "market_id"
            "Each outcome with its price and probability."
        , toolCard "get-market-history"
            "Get historical prices and volumes for a market."
            "market_id, timeframe (e.g. 1d, 7d, 30d, all)"
            "Time series suitable for charts/backtests." ] ]

/-- One blueprint card in the Agent Blueprints section. -/
def blueprintCard (cardTitle cardDesc toolsUsed instructionText : String) : Node :=
  .el "div" [("className", "rounded-2xl border border-slate-700/60 bg-slate-900/70 p-6")]
    [ .el "h3" [("className", "mb-3 text-xl font-semibold")] [.txt cardTitle]
    , .el "p" [("className", "mb-4 text-sm text-slate-400")] [.txt cardDesc]
    , .el "p" [("className", "mb-3 text-xs font-semibold text-slate-500")] [.txt "Tools used:"]
    , .el "p" [("className", "mb-4 text-xs text-slate-400")] [.txt toolsUsed]
    , .el "div" [("className", "rounded-lg bg-slate-950 p-3")]
        [ .el "p" [("className", "mb-2 text-xs font-semibold text-slate-500")] [.txt "Example instruction:"]
        , .el "p" [("className", "text-xs text-slate-300 italic")] [.txt instructionText] ] ]

/-- Agent blueprints section of the Home page. -/
def blueprintsSection : Node :=
  .el "section" [("className", "mb-24 md:mb-32")]
    [ .el "h2" [("className", "mb-2 text-3xl font-bold md:text-4xl")] [.txt "Agent blueprints you can build"]
    , .el "p" [("className", "mb-8 text-slate-400")]
        [.txt "A few ready-made concepts to get your creativity going."]
    , .el "div" [("className", "grid gap-7 md:grid-cols-3")]
        [ blueprintCard "Market Explorer Bot"
            "Scans open markets, surfaces high-liquidity, high-volume markets, grouped by category."
            "list-markets, get-market-info"
            "&quot;Regularly scan open Polymarket markets, rank them by liquidity and 24h volume, and produce a concise summary of the top 10, grouped by category (politics, crypto, sports, etc.). Highlight any markets that have recently opened or significantly changed volume.&quot;"
        , blueprintCard "Odds Change Sentinel"
            "Watches specific markets for sharp moves in probabilities and alerts the user."
            "get-market-prices, get-market-history"
            "&quot;Monitor the specified Polymarket market IDs, track their price history over the last 24 hours, and alert me whenever the implied probability moves by more than 5 percentage points within an hour. Provide context from the recent history when you generate an alert.&quot;"
        , blueprintCard "Narrative Tracker"
            "Follows a theme (e.g. US election, BTC ETF, etc.) across multiple related markets."
            "list-markets, get-market-info, get-market-prices"
            "&quot;Identify markets related to the US 2024 election, group them by candidate or key event, and periodically summarize how the probabilities have shifted across the narrative. Point out any markets where the odds diverge significantly from the others.&quot;" ] ]

/-- One question-and-answer card in the FAQ section. -/
def faqItem (question answer : String) : Node :=
  .el "div" [("className", "rounded-2xl border border-slate-700/60 bg-slate-900/70 p-6 transition-all duration-200")]
    [ .el "h3" [("className", "mb-2 text-lg font-semibold")] [.txt question]
    , .el "p" [("className", "text-slate-400")] [.txt answer] ]

/-- FAQ section of the Home page. -/
def faqSection : Node :=
  .el "section" [("className", "mb-24 md:mb-32")]
    [ .el "h2" [("className", "mb-8 text-3xl font-bold md:text-4xl")] [.txt "FAQ"]
    , .el "div" [("className", "space-y-4")]
        [ faqItem "Do I need to trust this website with my API key?"
            "No. The polymarket-mcp server runs on your own machine or infrastructure. This site is just a web interface for connecting and testing; we never see your keys."
        , faqItem "Which AI clients support MCP?"
            "Claude Desktop explicitly supports MCP, along with any other MCP-compatible clients. The protocol is open and standardized."
        , faqItem "Can I deploy the MCP server to my own infrastructure?"
            "Yes, it&apos;s standard Python. You can run it anywhere you can run uv and provide environment variables—your local machine, a VPS, a container, or any other infrastructure you control."
        , faqItem "Does this perform trading on my behalf?"
            "No. The MCP server provides data about markets, prices, and history. Any actual trading, wallet actions, or automation is done by your own agents or scripts and is your responsibility." ] ]

/-- Footer of the Home page. -/
def pageFooter : Node :=
  .el "footer" [("className", "border-t border-slate-800 bg-slate-950/50")]
    [ .el "div" [("className", "mx-auto max-w-6xl px-4 py-8")]
        [ .el "div" [("className", "flex flex-col items-center justify-between gap-4 md:flex-row")]
            [ .el "div" [("className", "text-center md:text-left")]
                [ .el "p" [("className", "text-slate-400")]
                    [.txt "Polymarket Agent Hub — built for developers exploring polymarket-mcp."]
                , .el "p" [("className", "mt-2 text-xs text-slate-500")]
                    [.txt "Not affiliated with Polymarket. Use at your own risk."] ]
            , .el "a"
                [ ("href", "https://github.com/polysolmcp/polysolmcp")
                , ("target", "_blank")
                , ("rel", "noreferrer")
                , ("title", "View repository on GitHub")
                , ("className", "text-sm text-slate-400 hover:text-slate-200 transition-colors") ]
                [.txt "GitHub →"] ] ] ]

/-- Embedding of the Home page component: the full static tree rendered
by the main landing page (navbar, hero, what-is, quickstart, client
config, tools, blueprints, FAQ, footer). -/
def Home : Node :=
  .el "div" [("className", "min-h-screen")]
    [ topNavbar
    , .el "main" [("className", "mx-auto max-w-6xl px-4 py-10 md:py-16")]
        [ heroSection
        , whatSection
        , quickstartSection
        , clientConfigSection
        , toolsSection
        , blueprintsSection
        , faqSection ]
    , pageFooter ]

mutual

/-- All elements of a rendered tree, in document order, as pairs of a tag
and an attribute list. -/
def elemsOf : Node → List (String × List (String × String))
  | .txt _ => []
  | .el t a cs => (t, a) :: elemsOfList cs

/-- All elements of a list of rendered trees, in document order. -/
def elemsOfList : List Node → List (String × List (String × String))
  | [] => []
  | n :: ns => elemsOf n ++ elemsOfList ns

end

/-- The values of a given attribute across all elements of a tree, in
document order. -/
def attrValuesOf (key : String) (n : Node) : List String :=
  (elemsOf n).foldr
    (fun e acc => e.2.filterMap (fun a => if a.1 == key then some a.2 else none) ++ acc) []

/-- The href values carried by anchor (`a`) elements of a tree. -/
def anchorHrefs (n : Node) : List String :=
  (elemsOf n).foldr
    (fun e acc =>
      (if e.1 == "a" then
        e.2.filterMap (fun a => if a.1 == "href" then some a.2 else none)
      else []) ++ acc) []

/-- Whether an href value is an in-page fragment link. -/
def isFragmentHref (s : String) : Bool :=
  match s.data with
  | c :: _ => c == '#'
  | [] => false

/-- The in-page fragment links of a tree. -/
def fragmentHrefs (n : Node) : List String :=
  (anchorHrefs n).filter isFragmentHref

/-- The element ids declared in a tree. -/
def idsOf (n : Node) : List String :=
  attrValuesOf "id" n

/-- The name of the section an in-page fragment link points at: the href
with its leading hash sign removed. -/
def fragmentTarget (s : String) : String :=
  String.mk (s.data.drop 1)

/-- Tags whose presence would make a page stateful, scripted or
form-interactive rather than purely presentational. -/
def statefulTags : List String :=
  ["script", "button", "input", "form", "textarea", "select", "iframe"]

/-- The attribute names that occur in the supplied components: all are
declarative. An event-handler attribute (onClick and friends) would fall
outside this list. -/
def declarativeAttrs : List String :=
  ["lang", "rel", "href", "className", "id", "target", "title"]

/-- A tree is purely presentational when it contains no stateful or
scripted element and every attribute is one of the declarative attribute
names (in particular no event handler). -/
def purelyPresentational (n : Node) : Bool :=
  (elemsOf n).all fun e =>
    !(statefulTags.contains e.1) && e.2.all (fun a => declarativeAttrs.contains a.1)

/-- Whether the href attribute occurs only on anchor elements of a tree. -/
def hrefOnlyOnAnchors (n : Node) : Bool :=
  (elemsOf n).all fun e =>
    e.2.all (fun a => !(a.1 == "href") || e.1 == "a")

/-- Modelled from the spec: the error taxonomy of the MCP server
(src/polymarket_mcp/server.py, not part of the supplied source).  Each
constructor carries only what the spec says is reported: the offending
field for a validation failure and the unresolved identifier for a 404;
no constructor can carry a stack trace or partial data. -/
inductive ToolError where
  | UnknownTool
  | ValidationError (field : String)
  | AuthError
  | NotFoundError (id : String)
  | RateLimitError
  | TimeoutError
  | ParseError
deriving DecidableEq, Repr

/-- Modelled from the spec: the tool registry of the missing MCP server
enumerates exactly four callable operations. -/
def toolNames : List String :=
  ["list-markets", "get-market-info", "get-market-prices", "get-market-history"]

/-- Modelled from the spec: the argument record of a tool invocation of
the missing MCP server; every field of the documented schemas is
optional at the transport level and checked by the dispatcher. -/
structure Args where
  status : Option String := none
  limit : Option Int := none
  offset : Option Int := none
  market_id : Option String := none
  timeframe : Option String := none
deriving DecidableEq, Repr

/-- Modelled from the spec: validation of the optional list-markets
status argument against the enumeration open/closed/resolved. -/
def validStatus : Option String → Bool
  | none => true
  | some s => s == "open" || s == "closed" || s == "resolved"

/-- Modelled from the spec: resolution of the optional limit argument of
the missing dispatcher; integer in 1..100, default 10, out-of-range
values rejected with the offending field name. -/
def resolveLimit : Option Int → Except String Int
  | none => .ok 10
  | some n => if 1 ≤ n ∧ n ≤ 100 then .ok n else .error "limit"

/-- Modelled from the spec: resolution of the optional offset argument
of the missing dispatcher; nonnegative integer, default 0. -/
def resolveOffset : Option Int → Except String Int
  | none => .ok 0
  | some n => if 0 ≤ n then .ok n else .error "offset"

/-- Modelled from the spec: resolution of the optional timeframe
argument of the missing dispatcher; one of 1d, 7d, 30d, all, with
default 7d. -/
def resolveTimeframe : Option String → Except String String
  | none => .ok "7d"
  | some t => if t == "1d" || t == "7d" || t == "30d" || t == "all" then .ok t else .error "timeframe"

/-- Modelled from the spec: a market summary row of a list-markets
payload of the missing server (ID, title, status, volume). -/
structure MarketSummary where
  id : String
  title : String
  status : String
  volume : ℚ
deriving DecidableEq, Repr

/-- Modelled from the spec: the market entity returned by
get-market-info from the missing server. -/
structure MarketInfo where
  title : String
  category : String
  status : String
  resolutionDate : String
  volume : ℚ
  liquidity : ℚ
  description : String
deriving DecidableEq, Repr

/-- Modelled from the spec: one outcome of a get-market-prices payload;
the price is a rational in the unit interval and the implied probability
is derived from it by the formatter. -/
structure PricePoint where
  outcome : String
  price : ℚ
deriving DecidableEq, Repr

/-- Modelled from the spec: one point of a get-market-history payload. -/
structure HistoryPoint where
  time : String
  price : ℚ
  volume : ℚ
deriving DecidableEq, Repr

/-- Modelled from the spec: a successfully parsed upstream JSON payload
of the missing server, one shape per tool. -/
inductive Payload where
  | markets (ms : List MarketSummary)
  | info (m : MarketInfo)
  | prices (ps : List PricePoint)
  | history (hs : List HistoryPoint)
deriving DecidableEq, Repr

/-- Modelled from the spec: the observable outcome of one upstream HTTP
request of the missing upstream client; the constructors are exactly the
upstream conditions the spec names (success, malformed JSON body,
HTTP 403, HTTP 404, HTTP 429, and absence of a response within the
30-second budget). -/
inductive UpstreamResp where
  | ok (p : Payload)
  | malformed
  | http403
  | http404
  | http429
  | timeout
deriving DecidableEq, Repr

/-- Modelled from the spec: the per-request timeout of the missing
upstream client, in seconds. -/
def timeoutSeconds : Nat := 30

/-- Modelled from the spec: the bounded retry budget of the missing
upstream client for HTTP 429 responses (retries after the first
attempt); the spec leaves the exact bound open and suggests at most
three attempts beyond the first as the documented design choice. -/
def maxRetries : Nat := 3

/-- Modelled from the spec: the retry loop of the missing upstream
client.  The upstream is an oracle assigning a response to each attempt
index; the loop starts at attempt `i` with `fuel` retries left and
returns the mapped result together with the number of requests made.
Only HTTP 429 is retried; a timeout, an auth failure, a 404 and a
malformed body are reported at once. -/
def fetchGo (u : Nat → UpstreamResp) (id : String) : Nat → Nat → Except ToolError Payload × Nat
  | fuel, i =>
    match u i with
    | .ok p => (.ok p, i + 1)
    | .malformed => (.error .ParseError, i + 1)
    | .http403 => (.error .AuthError, i + 1)
    | .http404 => (.error (.NotFoundError id), i + 1)
    | .timeout => (.error .TimeoutError, i + 1)
    | .http429 =>
      match fuel with
      | 0 => (.error .RateLimitError, i + 1)
      | fuel' + 1 => fetchGo u id fuel' (i + 1)

/-- Modelled from the spec: one upstream fetch of the missing upstream
client, starting at the first attempt with the full retry budget. -/
def fetch (u : Nat → UpstreamResp) (id : String) : Except ToolError Payload × Nat :=
  fetchGo u id maxRetries 0

/-- Decimal digits of a natural number left-padded with zeros to a given
width. -/
def padZeros (d : Nat) (m : Nat) : String :=
  let s := toString m
  String.mk (List.replicate (d - s.length) '0') ++ s

/-- Modelled from the spec: fixed-point decimal rendering used by the
missing response formatter; the value is rounded to `d` decimal places
and printed with exactly `d` digits after the point. -/
def renderFixed (d : Nat) (x : ℚ) : String :=
  let n : Nat := (round (x * (10 : ℚ) ^ d)).toNat
  let base : Nat := 10 ^ d
  toString (n / base) ++ "." ++ padZeros d (n % base)

/-- A rational rounded to one decimal place. -/
def round1dp (x : ℚ) : ℚ :=
  (round (x * 10) : ℚ) / 10

/-- Modelled from the spec: the record separator between repeated blocks
in the formatted output of the missing response formatter. -/
def recordSeparator : String := "\n---\n"

/-- Modelled from the spec: the missing response formatter for one
list-markets row (ID, Title, Status, Volume, currency with two
decimals). -/
def formatMarketSummary (m : MarketSummary) : String :=
  "ID: " ++ m.id ++ "\nTitle: " ++ m.title ++ "\nStatus: " ++ m.status ++
    "\nVolume: $" ++ renderFixed 2 m.volume

/-- Modelled from the spec: the missing response formatter for a
list-markets payload. -/
def formatMarkets (ms : List MarketSummary) : String :=
  String.intercalate recordSeparator (ms.map formatMarketSummary)

/-- Modelled from the spec: the missing response formatter for a
get-market-info payload (Title, Category, Status, Resolution Date,
Volume, Liquidity, Description, currency with two decimals). -/
def formatMarketInfo (m : MarketInfo) : String :=
  "Title: " ++ m.title ++ "\nCategory: " ++ m.category ++ "\nStatus: " ++ m.status ++
    "\nResolution Date: " ++ m.resolutionDate ++ "\nVolume: $" ++ renderFixed 2 m.volume ++
    "\nLiquidity: $" ++ renderFixed 2 m.liquidity ++ "\nDescription: " ++ m.description

/-- Modelled from the spec: the missing response formatter for one
outcome of a get-market-prices payload: outcome name, price with four
decimals, implied probability with one decimal, where the probability is
the price multiplied by 100. -/
def formatPricePoint (p : PricePoint) : String :=
  "Outcome: " ++ p.outcome ++ "\nPrice: $" ++ renderFixed 4 p.price ++
    "\nProbability: " ++ renderFixed 1 (p.price * 100) ++ "%"

/-- Modelled from the spec: the missing response formatter for a
get-market-prices payload. -/
def formatPrices (ps : List PricePoint) : String :=
  String.intercalate recordSeparator (ps.map formatPricePoint)

/-- Modelled from the spec: the missing response formatter for one point
of a get-market-history payload (Time, Price, Volume). -/
def formatHistoryPoint (h : HistoryPoint) : String :=
  "Time: " ++ h.time ++ "\nPrice: $" ++ renderFixed 4 h.price ++
    "\nVolume: $" ++ renderFixed 2 h.volume

/-- Modelled from the spec: the missing response formatter for a
get-market-history payload. -/
def formatHistory (hs : List HistoryPoint) : String :=
  String.intercalate recordSeparator (hs.map formatHistoryPoint)

/-- Modelled from the spec: the human-readable rendering of each error
of the missing server; a fixed text per taxonomy case, never a stack
trace. -/
def errorMessage : ToolError → String
  | .UnknownTool => "Unknown tool requested."
  | .ValidationError f => "Invalid input for field " ++ f ++ "."
  | .AuthError => "Authentication failed (HTTP 403). Check your credentials."
  | .NotFoundError id => "Market not found (HTTP 404): " ++ id
  | .RateLimitError => "Rate limited (HTTP 429) and retries exhausted."
  | .TimeoutError => "No response from upstream within 30 seconds."
  | .ParseError => "Upstream response was not valid JSON."

/-- The list-markets shape of a payload, when it has it. -/
def Payload.asMarkets : Payload → Option (List MarketSummary)
  | .markets ms => some ms
  | _ => none

/-- The get-market-info shape of a payload, when it has it. -/
def Payload.asInfo : Payload → Option MarketInfo
  | .info m => some m
  | _ => none

/-- The get-market-prices shape of a payload, when it has it. -/
def Payload.asPrices : Payload → Option (List PricePoint)
  | .prices ps => some ps
  | _ => none

/-- The get-market-history shape of a payload, when it has it. -/
def Payload.asHistory : Payload → Option (List HistoryPoint)
  | .history hs => some hs
  | _ => none

/-- Modelled from the spec: how the missing dispatcher pipes an upstream
fetch result into the response formatter.  A fetched payload of the
expected shape is formatted; a payload of any other shape is an
unexpected JSON document and reported as a parse failure; an upstream
error is passed through.  The request count is untouched. -/
def pipePayload (extract : Payload → Option α) (fmt : α → String) :
    Except ToolError Payload × Nat → Except ToolError String × Nat
  | (.ok p, k) =>
    match extract p with
    | some a => (.ok (fmt a), k)
    | none => (.error .ParseError, k)
  | (.error e, k) => (.error e, k)

/-- Modelled from the spec: the dispatcher of the missing MCP server.
It routes an invocation by tool name, validates the arguments against
the tool schema before any upstream request, and on success pipes the
fetched payload through the response formatter.  The result is the
formatted text or a structured error, paired with the number of
upstream requests the invocation made. -/
def invoke (name : String) (args : Args) (u : Nat → UpstreamResp) : Except ToolError String × Nat :=
  if name = "list-markets" then
    if !(validStatus args.status) then (.error (.ValidationError "status"), 0)
    else
      match resolveLimit args.limit with
      | .error f => (.error (.ValidationError f), 0)
      | .ok _ =>
        match resolveOffset args.offset with
        | .error f => (.error (.ValidationError f), 0)
        | .ok _ => pipePayload Payload.asMarkets formatMarkets (fetch u "")
  else if name = "get-market-info" then
    match args.market_id with
    | none => (.error (.ValidationError "market_id"), 0)
    | some id => pipePayload Payload.asInfo formatMarketInfo (fetch u id)
  else if name = "get-market-prices" then
    match args.market_id with
    | none => (.error (.ValidationError "market_id"), 0)
    | some id => pipePayload Payload.asPrices formatPrices (fetch u id)
  else if name = "get-market-history" then
    match args.market_id with
    | none => (.error (.ValidationError "market_id"), 0)
    | some id =>
      match resolveTimeframe args.timeframe with
      | .error f => (.error (.ValidationError f), 0)
      | .ok _ => pipePayload Payload.asHistory formatHistory (fetch u id)
  else (.error .UnknownTool, 0)

/-- An upstream oracle answering the first request with HTTP 429 and
every later request with an empty prices payload. -/
def u429then200 : Nat → UpstreamResp :=
  fun i => if i = 0 then .http429 else .ok (.prices [])

/-- The retry loop never reports an unknown tool: that error belongs to
the registry, not to the upstream client. -/
lemma fetchGo_fst_ne_unknown (u : Nat → UpstreamResp) (id : String) :
    ∀ fuel i, (fetchGo u id fuel i).1 ≠ Except.error ToolError.UnknownTool := by
  intro fuel
  induction fuel with
  | zero =>
    intro i
    cases h : u i <;> simp [fetchGo, h]
  | succ n ih =>
    intro i
    cases h : u i <;> simp [fetchGo, h]
    exact ih (i + 1)

/-- The retry loop never reports a validation failure: that error is
raised before any upstream request. -/
lemma fetchGo_fst_ne_validation (u : Nat → UpstreamResp) (id : String) :
    ∀ fuel i f, (fetchGo u id fuel i).1 ≠ Except.error (ToolError.ValidationError f) := by
  intro fuel
  induction fuel with
  | zero =>
    intro i f
    cases h : u i <;> simp [fetchGo, h]
  | succ n ih =>
    intro i f
    cases h : u i <;> simp [fetchGo, h]
    exact ih (i + 1) f

/-- An error coming out of the formatter pipe is either the fetch error
passed through or a parse failure on an unexpected payload shape. -/
lemma pipePayload_fst_error {α : Type} (extract : Payload → Option α) (fmt : α → String)
    (x : Except ToolError Payload × Nat) (e : ToolError)
    (h : (pipePayload extract fmt x).1 = .error e) :
    x.1 = .error e ∨ e = .ParseError := by
  rcases x with ⟨r, k⟩
  rcases r with e' | p
  · simp [pipePayload] at h
    simp [h]
  · simp [pipePayload] at h
    rcases he : extract p with _ | a <;> rw [he] at h <;> simp_all

/-- Piping a fetch result through the formatter never yields an unknown
tool error. -/
lemma pipe_fetch_fst_ne_unknown {α : Type} (extract : Payload → Option α) (fmt : α → String)
    (u : Nat → UpstreamResp) (id : String) :
    (pipePayload extract fmt (fetch u id)).1 ≠ Except.error ToolError.UnknownTool := by
  intro h
  rcases pipePayload_fst_error extract fmt (fetch u id) _ h with h' | h'
  · exact fetchGo_fst_ne_unknown u id maxRetries 0 h'
  · exact ToolError.noConfusion h'

/-- Piping a fetch result through the formatter never yields a
validation error. -/
lemma pipe_fetch_fst_ne_validation {α : Type} (extract : Payload → Option α) (fmt : α → String)
    (u : Nat → UpstreamResp) (id : String) (f : String) :
    (pipePayload extract fmt (fetch u id)).1 ≠ Except.error (ToolError.ValidationError f) := by
  intro h
  rcases pipePayload_fst_error extract fmt (fetch u id) _ h with h' | h'
  · exact fetchGo_fst_ne_validation u id maxRetries 0 f h'
  · exact ToolError.noConfusion h'

/-- Timeframe resolution accepts exactly the four documented enum values
and otherwise rejects with the offending field name. -/
lemma resolveTimeframe_spec (t : String) :
    resolveTimeframe (some t) =
      if t = "1d" ∨ t = "7d" ∨ t = "30d" ∨ t = "all" then .ok t else .error "timeframe" := by
  by_cases h : t = "1d" ∨ t = "7d" ∨ t = "30d" ∨ t = "all"
  · rw [if_pos h]
    rcases h with rfl | rfl | rfl | rfl <;> simp [resolveTimeframe]
  · rw [if_neg h]
    have h' : ¬t = "1d" ∧ ¬t = "7d" ∧ ¬t = "30d" ∧ ¬t = "all" := by tauto
    simp [resolveTimeframe, h'.1, h'.2.1, h'.2.2.1, h'.2.2.2]

/-- Multiplying a value rounded to one decimal by ten recovers the
rounded integer count of tenths. -/
lemma round1dp_mul_ten (x : ℚ) : round1dp x * 10 = (round (x * 10) : ℚ) := by
  rw [round1dp, div_mul_cancel₀]
  norm_num

/-- Rendering with one decimal place is invariant under first rounding
the value to one decimal place: the displayed digits are exactly those
of the rounded value. -/
lemma renderFixed_one_round1dp (x : ℚ) : renderFixed 1 (round1dp x) = renderFixed 1 x := by
  have h : round (round1dp x * 10) = round (x * 10) := by
    rw [round1dp_mul_ten, round_intCast]
  simp [renderFixed, h]

/-- C1: the tool registry exposes exactly the four tools list-markets,
get-market-info, get-market-prices and get-market-history; invoking any
name outside these four fails with UnknownTool, and invoking a
registered name never does. -/
theorem tool_registry_exactly_four :
    toolNames = ["list-markets", "get-market-info", "get-market-prices", "get-market-history"] ∧
    (∀ name args u, name ∉ toolNames → invoke name args u = (.error .UnknownTool, 0)) ∧
    (∀ name args u, name ∈ toolNames → (invoke name args u).1 ≠ .error .UnknownTool) := by
  refine ⟨rfl, ?_, ?_⟩
  · intro name args u h
    simp [toolNames] at h
    obtain ⟨h1, h2, h3, h4⟩ := h
    simp [invoke, h1, h2, h3, h4]
  · intro name args u h
    simp [toolNames] at h
    rcases h with rfl | rfl | rfl | rfl <;>
      simp only [invoke, String.reduceEq, reduceIte]
    · split
      · simp
      · split
        · simp
        · split
          · simp
          · exact pipe_fetch_fst_ne_unknown _ _ u ""
    · cases hm : args.market_id
      · simp [hm]
      · simp only [hm]
        exact pipe_fetch_fst_ne_unknown _ _ u _
    · cases hm : args.market_id
      · simp [hm]
      · simp only [hm]
        exact pipe_fetch_fst_ne_unknown _ _ u _
    · cases hm : args.market_id
      · simp [hm]
      · simp only [hm]
        split
        · simp
        · exact pipe_fetch_fst_ne_unknown _ _ u _

/-- Witness for C1 at concrete inputs: the made-up name not-a-tool is
rejected with UnknownTool and the registered name list-markets is not. -/
theorem tool_registry_exactly_four_witness :
    invoke "not-a-tool" {} (fun _ => .timeout) = (.error .UnknownTool, 0) ∧
    (invoke "list-markets" {} (fun _ => .timeout)).1 ≠ .error .UnknownTool :=
  ⟨tool_registry_exactly_four.2.1 "not-a-tool" {} (fun _ => .timeout) (by decide),
   tool_registry_exactly_four.2.2 "list-markets" {} (fun _ => .timeout) (by decide)⟩

/-- C2: the optional list-markets status argument is validated against
the enumeration open/closed/resolved; each of the three values lets the
invocation proceed to a successful response, and any other value is
rejected with a ValidationError naming the status field, before any
upstream request. -/
theorem list_markets_status_enum (s : String) :
    (validStatus (some s) = true ↔ s = "open" ∨ s = "closed" ∨ s = "resolved") ∧
    (∀ args u, args.status = some s → validStatus (some s) = false →
      invoke "list-markets" args u = (.error (.ValidationError "status"), 0)) ∧
    (∀ u ms, (∀ i, u i = .ok (.markets ms)) → validStatus (some s) = true →
      invoke "list-markets" { status := some s } u = (.ok (formatMarkets ms), 1)) := by
  refine ⟨?_, ?_, ?_⟩
  · simp [validStatus, or_assoc]
  · intro args u hs hv
    simp [invoke, hs, hv]
  · intro u ms hu hv
    have hf : fetch u "" = (.ok (.markets ms), 1) := by
      simp [fetch, maxRetries, fetchGo, hu 0]
    simp [invoke, hv, resolveLimit, resolveOffset, hf, pipePayload, Payload.asMarkets]

/-- Witness for C2 at concrete inputs: the status value banana is
rejected and the status value open is accepted. -/
theorem list_markets_status_enum_witness :
    invoke "list-markets" { status := some "banana" } (fun _ => .timeout) =
      (.error (.ValidationError "status"), 0) ∧
    invoke "list-markets" { status := some "open" } (fun _ => .ok (.markets [])) =
      (.ok (formatMarkets []), 1) :=
  ⟨(list_markets_status_enum "banana").2.1 { status := some "banana" } (fun _ => .timeout) rfl (by decide),
   (list_markets_status_enum "open").2.2 (fun _ => .ok (.markets [])) [] (fun _ => rfl) (by decide)⟩

/-- C3: the documented schema defaults and bounds: a missing limit
defaults to 10 and an explicit limit must lie in 1..100; a missing
offset defaults to 0 and an explicit offset must be nonnegative; a
missing timeframe defaults to 7d and an explicit timeframe must be one
of 1d, 7d, 30d, all; a value outside the bounds or the enum is rejected
by the dispatcher with a ValidationError before any upstream request. -/
theorem schema_defaults_and_bounds :
    resolveLimit none = .ok 10 ∧
    resolveOffset none = .ok 0 ∧
    resolveTimeframe none = .ok "7d" ∧
    (∀ n : Int, resolveLimit (some n) = if 1 ≤ n ∧ n ≤ 100 then .ok n else .error "limit") ∧
    (∀ n : Int, resolveOffset (some n) = if 0 ≤ n then .ok n else .error "offset") ∧
    (∀ t : String, resolveTimeframe (some t) =
      if t = "1d" ∨ t = "7d" ∨ t = "30d" ∨ t = "all" then .ok t else .error "timeframe") ∧
    (∀ (u : Nat → UpstreamResp) (t : String), ¬(t = "1d" ∨ t = "7d" ∨ t = "30d" ∨ t = "all") →
      invoke "get-market-history" { market_id := some "m", timeframe := some t } u =
        (.error (.ValidationError "timeframe"), 0)) := by
  refine ⟨rfl, rfl, rfl, fun n => rfl, fun n => rfl, resolveTimeframe_spec, ?_⟩
  intro u t h
  have ht : resolveTimeframe (some t) = .error "timeframe" := by
    rw [resolveTimeframe_spec, if_neg h]
  simp [invoke, ht]

/-- Witness for C3 at a concrete input: the timeframe value 2w is
outside the enum and rejected without an upstream call. -/
theorem schema_defaults_and_bounds_witness :
    invoke "get-market-history" { market_id := some "m", timeframe := some "2w" } (fun _ => .timeout) =
      (.error (.ValidationError "timeframe"), 0) :=
  schema_defaults_and_bounds.2.2.2.2.2.2 (fun _ => .timeout) "2w" (by decide)

/-- C4: each documented upstream failure maps to exactly one error of
the taxonomy: HTTP 403 to AuthError, HTTP 404 to NotFoundError carrying
the identifier, HTTP 429 to RateLimitError once the bounded retry
budget is exhausted, a timeout (30-second budget) to TimeoutError after
a single request with no automatic retry, and a malformed JSON body to
ParseError, whose constructor carries no partial data. -/
theorem upstream_error_taxonomy (u : Nat → UpstreamResp) (id : String) :
    timeoutSeconds = 30 ∧
    (u 0 = .http403 → fetch u id = (.error .AuthError, 1)) ∧
    (u 0 = .http404 → fetch u id = (.error (.NotFoundError id), 1)) ∧
    ((∀ i, i ≤ maxRetries → u i = .http429) → fetch u id = (.error .RateLimitError, maxRetries + 1)) ∧
    (u 0 = .timeout → fetch u id = (.error .TimeoutError, 1)) ∧
    (u 0 = .malformed → fetch u id = (.error .ParseError, 1)) := by
  refine ⟨rfl, ?_, ?_, ?_, ?_, ?_⟩ <;> intro h
  · simp [fetch, maxRetries, fetchGo, h]
  · simp [fetch, maxRetries, fetchGo, h]
  · have h0 := h 0 (by simp [maxRetries])
    have h1 := h 1 (by simp [maxRetries])
    have h2 := h 2 (by simp [maxRetries])
    have h3 := h 3 (by simp [maxRetries])
    simp [fetch, maxRetries, fetchGo, h0, h1, h2, h3]
  · simp [fetch, maxRetries, fetchGo, h]
  · simp [fetch, maxRetries, fetchGo, h]

/-- Witness for C4 at concrete upstream oracles, one per documented
failure. -/
theorem upstream_error_taxonomy_witness :
    fetch (fun _ => .http403) "m" = (.error .AuthError, 1) ∧
    fetch (fun _ => .http404) "m" = (.error (.NotFoundError "m"), 1) ∧
    fetch (fun _ => .http429) "m" = (.error .RateLimitError, maxRetries + 1) ∧
    fetch (fun _ => .timeout) "m" = (.error .TimeoutError, 1) ∧
    fetch (fun _ => .malformed) "m" = (.error .ParseError, 1) :=
  ⟨(upstream_error_taxonomy (fun _ => .http403) "m").2.1 rfl,
   (upstream_error_taxonomy (fun _ => .http404) "m").2.2.1 rfl,
   (upstream_error_taxonomy (fun _ => .http429) "m").2.2.2.1 (fun _ _ => rfl),
   (upstream_error_taxonomy (fun _ => .timeout) "m").2.2.2.2.1 rfl,
   (upstream_error_taxonomy (fun _ => .malformed) "m").2.2.2.2.2 rfl⟩

/-- C5: an invocation whose first upstream request receives HTTP 429
and whose retried request succeeds within the retry budget returns the
successful payload, not a RateLimitError; in particular the dispatcher
returns the formatted payload for get-market-prices. -/
theorem retry_then_success (u : Nat → UpstreamResp) (id : String) (p : Payload)
    (h0 : u 0 = .http429) (h1 : u 1 = .ok p) :
    fetch u id = (.ok p, 2) ∧
    (∀ ps, p = .prices ps →
      invoke "get-market-prices" { market_id := some id } u = (.ok (formatPrices ps), 2)) := by
  have hf : fetch u id = (.ok p, 2) := by
    simp [fetch, maxRetries, fetchGo, h0, h1]
  refine ⟨hf, ?_⟩
  rintro ps rfl
  simp [invoke, hf, pipePayload, Payload.asPrices]

/-- Witness for C5 at a concrete upstream oracle: HTTP 429 followed by
a successful prices payload. -/
theorem retry_then_success_witness :
    fetch u429then200 "m" = (.ok (.prices []), 2) ∧
    invoke "get-market-prices" { market_id := some "m" } u429then200 =
      (.ok (formatPrices []), 2) := by
  have h := retry_then_success u429then200 "m" (.prices []) rfl rfl
  exact ⟨h.1, h.2 [] rfl⟩

/-- C6: an invocation whose arguments fail schema validation returns a
ValidationError with zero upstream requests made; in particular
list-markets with limit 0 or limit 101 is rejected immediately. -/
theorem validation_error_no_upstream_call :
    (∀ name args u f k, invoke name args u = (.error (.ValidationError f), k) → k = 0) ∧
    (∀ u, invoke "list-markets" { limit := some 0 } u = (.error (.ValidationError "limit"), 0)) ∧
    (∀ u, invoke "list-markets" { limit := some 101 } u = (.error (.ValidationError "limit"), 0)) := by
  refine ⟨?_, ?_, ?_⟩
  · intro name args u f k h
    simp only [invoke] at h
    repeat' split at h
    all_goals try (injection h with h1 h2; exact h2.symm)
    all_goals exact absurd (congrArg Prod.fst h) (pipe_fetch_fst_ne_validation _ _ u _ f)
  · intro u
    simp [invoke, validStatus, resolveLimit]
  · intro u
    simp [invoke, validStatus, resolveLimit]

/-- Witness for C6 at concrete inputs: limit 0 and limit 101 are both
rejected with zero upstream requests. -/
theorem validation_error_no_upstream_call_witness :
    (0 : Nat) = 0 ∧
    invoke "list-markets" { limit := some 101 } (fun _ => .timeout) =
      (.error (.ValidationError "limit"), 0) :=
  ⟨validation_error_no_upstream_call.1 "list-markets" { limit := some 0 } (fun _ => .timeout) "limit" 0
     (validation_error_no_upstream_call.2.1 (fun _ => .timeout)),
   validation_error_no_upstream_call.2.2 (fun _ => .timeout)⟩

/-- C7: in every formatted get-market-prices outcome the displayed
probability is the outcome price multiplied by 100 and rounded to one
decimal place, rendered with one decimal, while the price is rendered
with four decimals; the formatted payload is the list of outcome blocks
joined by the record separator. -/
theorem implied_probability_formatting (p : PricePoint) :
    formatPricePoint p =
      "Outcome: " ++ p.outcome ++ "\nPrice: $" ++ renderFixed 4 p.price ++
        "\nProbability: " ++ renderFixed 1 (round1dp (p.price * 100)) ++ "%" ∧
    (∀ ps, formatPrices ps = String.intercalate recordSeparator (ps.map formatPricePoint)) := by
  refine ⟨?_, fun ps => rfl⟩
  simp [formatPricePoint, renderFixed_one_round1dp]

set_option maxRecDepth 400000 in
/-- C9: the two page components are pure deterministic render
functions: RootLayout maps equal children to equal documents and
preserves the purely presentational property, and the Home tree
contains no scripted, stateful or form element and no event-handler
attribute; its only hrefs sit on anchor elements and point either at
the GitHub repository or at the in-page quickstart fragment. -/
theorem components_pure_presentational :
    (∀ c₁ c₂ : Node, c₁ = c₂ → RootLayout c₁ = RootLayout c₂) ∧
    (∀ c : Node, purelyPresentational c = true → purelyPresentational (RootLayout c) = true) ∧
    purelyPresentational Home = true ∧
    hrefOnlyOnAnchors Home = true ∧
    ((anchorHrefs Home).all fun h =>
      h == "https://github.com/polysolmcp/polysolmcp" || h == "#quickstart") = true := by
  refine ⟨?_, ?_, by decide, by decide, by decide⟩
  · intro c₁ c₂ h
    rw [h]
  · intro c h
    have hre : elemsOf (RootLayout c) =
        ("html", [("lang", "en")]) :: ("head", []) ::
          ("link", [("rel", "icon"), ("href", "/favicon.png")]) ::
          ("body", [("className", "bg-slate-950 text-slate-50 antialiased")]) ::
          (elemsOf c ++ []) := by
      simp [RootLayout, elemsOf, elemsOfList]
    unfold purelyPresentational at h ⊢
    rw [hre]
    simp only [List.all_cons, List.all_append, List.all_nil, h]
    decide

/-- Witness for C9 at a concrete child: the full Home page placed
inside the root layout. -/
theorem components_pure_presentational_witness :
    RootLayout Home = RootLayout Home ∧ purelyPresentational (RootLayout Home) = true :=
  ⟨components_pure_presentational.1 Home Home rfl,
   components_pure_presentational.2.1 Home components_pure_presentational.2.2.1⟩

set_option maxRecDepth 400000 in
/-- C10: every in-page fragment link of the Home page resolves: the
fragment links are exactly the quickstart link, the declared element
ids are exactly quickstart, and each fragment link targets a declared
id. -/
theorem fragment_links_resolve :
    fragmentHrefs Home = ["#quickstart"] ∧
    idsOf Home = ["quickstart"] ∧
    ((fragmentHrefs Home).all fun h => (idsOf Home).contains (fragmentTarget h)) = true :=
  ⟨by decide, by decide, by decide⟩
